import Mathlib

/-!
Verification development for the persona-graph streaming client.

Shallow embedding of:
  - src/ui/src/hooks/useProfileCache.js (cache key derivation, localStorage-backed cache
    with 24h TTL and lazy eviction),
  - the streaming App component (src/unnamed/part_009, first document): the WebSocket
    message handlers, the submission flow (handleSubmit), the connection readiness wait
    (ensureWebSocketConnection), and the connection lifecycle with reconnect backoff
    and the teardown cleanup.

Modelling notes, matching the JavaScript source:
  - The message handlers are created once inside a useEffect with an empty dependency
    list, so the identifier form they reference is the form value of the first render
    (the initial form). The AppState field mountForm records that captured value; the
    current form at submission time is passed to handleSubmit as an argument.
  - Likewise, ensureWebSocketConnection reads a wsState value captured at the render
    in which the call was made; that value is constant for the whole wait, while the
    socket handle is read through a mutable ref and therefore live. The poll model
    takes the captured state as a constant and the live open status as a function of
    the poll tick.
  - localStorage is modelled as an association list from cache keys to entries;
    Date.now() is an explicit Int parameter (epoch milliseconds).
-/

/-- A JSON-like value stored in a profile section of the streaming accumulator. -/
inductive JsVal
  | jstr (s : String)
  | jnull
  | jbasic (name company title linkedin_url : String)
deriving DecidableEq, Repr

/-- The execution_summary object attached to an enhanced final result. -/
structure ExecSummary where
  failed_agents : Option (List String)
deriving DecidableEq, Repr

/-- Payload of a result-bearing event (partial_result, final_result, result).
Each section field is an Option: none means the field is absent from the payload
(left untouched by the object spread), some v means present with value v. -/
structure ResultPayload where
  basic_info : Option JsVal
  background_info : Option JsVal
  leadership_info : Option JsVal
  reputation_info : Option JsVal
  strategy_info : Option JsVal
  aggregated_profile : Option JsVal
  metadata : Option (List String)
  execution_summary : Option ExecSummary
  user_message : Option String
deriving DecidableEq, Repr

/-- The form state: identity fields plus the llm / searchEngine selections. -/
structure FormData where
  name : String
  title : String
  company : String
  summary : String
  linkedin : String
  llm : String
  searchEngine : String
deriving DecidableEq, Repr

/-- The relevantData object that generateCacheKey serializes. JSON.stringify with a
fixed field order is injective on string fields, so key equality is equality of this
record. -/
structure CacheKey where
  name : String
  title : String
  company : String
  summary : String
  linkedin : String
  llm : String
  searchEngine : String
deriving DecidableEq, Repr

/-- String.prototype.trim: removes leading and trailing whitespace, modelled on the
character list of the string. -/
def jsTrim (s : String) : String :=
  String.mk (((s.data.dropWhile Char.isWhitespace).reverse.dropWhile
    Char.isWhitespace).reverse)

/-- String.prototype.toLowerCase, character-wise. -/
def jsToLower (s : String) : String :=
  String.mk (s.data.map Char.toLower)

/-- The normalization applied to each identity field: trim().toLowerCase(). -/
def normalizeIdentity (s : String) : String :=
  jsToLower (jsTrim s)

/-- generateCacheKey from useProfileCache.js: identity fields are passed through
trim().toLowerCase(); llm and searchEngine are taken as-is. -/
def generateCacheKey (formData : FormData) : CacheKey :=
  { name := normalizeIdentity formData.name
    title := normalizeIdentity formData.title
    company := normalizeIdentity formData.company
    summary := normalizeIdentity formData.summary
    linkedin := normalizeIdentity formData.linkedin
    llm := formData.llm
    searchEngine := formData.searchEngine }

/-- CACHE_EXPIRY = 24 * 60 * 60 * 1000 milliseconds. -/
def CACHE_EXPIRY : Int := 24 * 60 * 60 * 1000

/-- A parsed cache entry: { data, timestamp }. -/
structure CacheEntry where
  data : ResultPayload
  timestamp : Int
deriving DecidableEq, Repr

/-- The persisted per-origin key-value store (localStorage), keyed by kappa. -/
abbrev KVStore (kappa : Type) := List (kappa × CacheEntry)

/-- localStorage.getItem. -/
def getItem {kappa : Type} [DecidableEq kappa] : KVStore kappa → kappa → Option CacheEntry
  | [], _ => none
  | (k1, e) :: rest, k => if k1 = k then some e else getItem rest k

/-- localStorage.removeItem. -/
def removeItem {kappa : Type} [DecidableEq kappa] : KVStore kappa → kappa → KVStore kappa
  | [], _ => []
  | (k1, e) :: rest, k =>
      if k1 = k then removeItem rest k else (k1, e) :: removeItem rest k

/-- localStorage.setItem (overwrites any prior entry for the key). -/
def setItem {kappa : Type} [DecidableEq kappa] (store : KVStore kappa) (k : kappa)
    (e : CacheEntry) : KVStore kappa :=
  (k, e) :: removeItem store k

/-- The store used by the pure-form cache path. -/
abbrev Store := KVStore CacheKey

/-- getCachedResult: returns the stored data when now - timestamp < CACHE_EXPIRY,
otherwise removes the expired entry and misses. Returns the possibly-updated store. -/
def getCachedResult {kappa : Type} [DecidableEq kappa] (store : KVStore kappa)
    (cacheKey : kappa) (now : Int) : Option ResultPayload × KVStore kappa :=
  match getItem store cacheKey with
  | some entry =>
      if now - entry.timestamp < CACHE_EXPIRY then (some entry.data, store)
      else (none, removeItem store cacheKey)
  | none => (none, store)

/-- setCachedResult: persists { data, timestamp := now } under the key. -/
def setCachedResult {kappa : Type} [DecidableEq kappa] (store : KVStore kappa)
    (cacheKey : kappa) (data : ResultPayload) (now : Int) : KVStore kappa :=
  setItem store cacheKey { data := data, timestamp := now }

/-- checkCache from the hook: derive the key, read the store; also returns the
isCacheHit flag the hook records. -/
def checkCache (formData : FormData) (store : Store) (now : Int) :
    Option ResultPayload × Store × Bool :=
  let cacheKey := generateCacheKey formData
  let lookup := getCachedResult store cacheKey now
  (lookup.1, lookup.2, lookup.1.isSome)

/-- updateCache from the hook: derive the key and persist the result. -/
def updateCache (formData : FormData) (store : Store) (result : ResultPayload)
    (now : Int) : Store :=
  setCachedResult store (generateCacheKey formData) result now

/-- The streaming accumulator state (streamingResult). -/
structure StreamingResult where
  basic_info : Option JsVal
  background_info : Option JsVal
  leadership_info : Option JsVal
  reputation_info : Option JsVal
  strategy_info : Option JsVal
  aggregated_profile : Option JsVal
  metadata : List String
  isComplete : Bool
deriving DecidableEq, Repr

/-- Object-spread merge of a payload into the accumulator: a field present in the
payload overwrites, an absent field is left untouched; isComplete is preserved here
and overridden by the spread literal in each handler. -/
def mergeStreaming (prev : StreamingResult) (d : ResultPayload) : StreamingResult :=
  { basic_info := match d.basic_info with | some v => some v | none => prev.basic_info
    background_info :=
      match d.background_info with | some v => some v | none => prev.background_info
    leadership_info :=
      match d.leadership_info with | some v => some v | none => prev.leadership_info
    reputation_info :=
      match d.reputation_info with | some v => some v | none => prev.reputation_info
    strategy_info :=
      match d.strategy_info with | some v => some v | none => prev.strategy_info
    aggregated_profile :=
      match d.aggregated_profile with | some v => some v | none => prev.aggregated_profile
    metadata := d.metadata.getD prev.metadata
    isComplete := prev.isComplete }

/-- The error state of the app: either the payload of an error frame forwarded by the
server, or the advisory string the final_result handler composes when the execution
summary lists failed agents. -/
inductive AppError
  | fromServer (d : String)
  | limitations (msg : String)
deriving DecidableEq, Repr

/-- The caller-visible state of the streaming App component. mountForm is the form
value captured by the message-handler closures at mount time (the useEffect runs once
with an empty dependency list, so the handlers always see the first-render form). -/
structure AppState where
  loading : Bool
  result : Option ResultPayload
  error : Option AppError
  progress : List String
  streamingResult : StreamingResult
  currentNode : Option String
  completedNodes : List String
  store : Store
  mountForm : FormData
  isCacheHit : Bool
deriving DecidableEq, Repr

/-- The inbound event envelope types the message router dispatches on. -/
inductive Event
  | progress (d : String)
  | node_start (node : String)
  | node_error (node err : String)
  | partial_result (d : ResultPayload)
  | node_complete (node : String)
  | final_result (d : ResultPayload)
  | result (d : ResultPayload)
  | error (d : String)
deriving Repr

/-- Whether an event is a partial_result frame. -/
def Event.isPartialResult : Event → Bool
  | .partial_result _ => true
  | _ => false

/-- messageHandlers.progress. -/
def handleProgress (d : String) (s : AppState) : AppState :=
  { s with progress := s.progress ++ [d], error := none }

/-- messageHandlers.node_start. -/
def handleNodeStart (node : String) (s : AppState) : AppState :=
  { s with currentNode := some node
           progress := s.progress ++ ["Starting " ++ node ++ "..."] }

/-- messageHandlers.node_error: appends an advisory line to the activity log and
deliberately leaves the global error, loading flag and accumulator untouched. -/
def handleNodeError (node err : String) (s : AppState) : AppState :=
  { s with progress := s.progress ++ ["⚠️ " ++ node ++ " failed: " ++ err] }

/-- messageHandlers.partial_result: spread-merges the payload and sets
isComplete to false. -/
def handlePartialResult (d : ResultPayload) (s : AppState) : AppState :=
  { s with streamingResult := { mergeStreaming s.streamingResult d with isComplete := false } }

/-- messageHandlers.node_complete. -/
def handleNodeComplete (node : String) (s : AppState) : AppState :=
  { s with completedNodes := s.completedNodes ++ [node]
           progress := s.progress ++ ["✅ Completed " ++ node] }

/-- Default detail used when data.user_message is falsy. -/
def advisoryDefault : String := "Some components failed to complete."

/-- data.user_message with the JavaScript falsy fallback (undefined or empty string
fall back to the default). -/
def advisoryDetail (d : ResultPayload) : String :=
  match d.user_message with
  | some m => if m = "" then advisoryDefault else m
  | none => advisoryDefault

/-- data.execution_summary and data.execution_summary.failed_agents length check from
the final_result handler. -/
def hasFailedAgents (d : ResultPayload) : Bool :=
  match d.execution_summary with
  | some es =>
      match es.failed_agents with
      | some l => decide (0 < l.length)
      | none => false
  | none => false

/-- The advisory message composed by the final_result handler. -/
def limitationsMessage (d : ResultPayload) : String :=
  "Profile generated with some limitations: " ++ advisoryDetail d

/-- messageHandlers.final_result: sets the result, merges into the accumulator with
isComplete := true, stores the payload in the cache under the key of the mount-time
form (the closure-captured form), ends loading, clears the current node, and composes
the advisory when the execution summary lists failed agents. -/
def handleFinalResult (now : Int) (d : ResultPayload) (s : AppState) : AppState :=
  { s with result := some d
           streamingResult := { mergeStreaming s.streamingResult d with isComplete := true }
           store := updateCache s.mountForm s.store d now
           loading := false
           currentNode := none
           error :=
             if hasFailedAgents d then some (.limitations (limitationsMessage d))
             else none }

/-- messageHandlers.result, the non-streaming fallback: sets the result, stores it in
the cache under the mount-time form key, ends loading and clears the error. It does
not touch streamingResult or currentNode. -/
def handleResult (now : Int) (d : ResultPayload) (s : AppState) : AppState :=
  { s with result := some d
           store := updateCache s.mountForm s.store d now
           loading := false
           error := none }

/-- messageHandlers.error. -/
def handleErrorEvent (d : String) (s : AppState) : AppState :=
  { s with error := some (.fromServer d), loading := false, currentNode := none }

/-- The message-router dispatch table, as a function of the event type. -/
def handleEvent (now : Int) (e : Event) (s : AppState) : AppState :=
  match e with
  | .progress d => handleProgress d s
  | .node_start node => handleNodeStart node s
  | .node_error node err => handleNodeError node err s
  | .partial_result d => handlePartialResult d s
  | .node_complete node => handleNodeComplete node s
  | .final_result d => handleFinalResult now d s
  | .result d => handleResult now d s
  | .error d => handleErrorEvent d s

/-- Process a sequence of inbound events in arrival order. -/
def processEvents (now : Int) (es : List Event) (s : AppState) : AppState :=
  es.foldl (fun acc e => handleEvent now e acc) s

/-- The fresh streaming state handleSubmit installs: basic_info seeded from the
submitted form, everything else empty. -/
def resetStreaming (form : FormData) : StreamingResult :=
  { basic_info := some (.jbasic form.name form.company form.title form.linkedin)
    background_info := none
    leadership_info := none
    reputation_info := none
    strategy_info := none
    aggregated_profile := none
    metadata := []
    isComplete := false }

/-- handleSubmit: resets the per-submission state, checks the cache with the current
form; on a hit it installs the cached payload and finishes without network activity;
on a miss it proceeds to send the enrich frame (the Bool result records whether an
outbound enrich frame is sent, assuming the readiness wait succeeds). -/
def handleSubmit (now : Int) (form : FormData) (s : AppState) : AppState × Bool :=
  let s1 : AppState :=
    { s with loading := true
             error := none
             progress := []
             result := none
             streamingResult := resetStreaming form
             currentNode := none
             completedNodes := [] }
  match checkCache form s1.store now with
  | (some cached, st, hit) =>
      ({ s1 with store := st, isCacheHit := hit, result := some cached, loading := false },
       false)
  | (none, st, hit) =>
      ({ s1 with store := st, isCacheHit := hit }, true)

/-- The ConnectionState value exposed through wsState. -/
inductive WsState
  | disconnected
  | connecting
  | connected
deriving DecidableEq, Repr

/-- The readyState of the socket object referenced by wsRef.current. -/
inductive ReadyState
  | connectingRS
  | openRS
deriving DecidableEq, Repr

/-- maxReconnectDelay = 5000. -/
def maxReconnectDelay : Nat := 5000

/-- baseReconnectDelay = 1000. -/
def baseReconnectDelay : Nat := 1000

/-- WS_CONNECT_TIMEOUT = 5000. -/
def WS_CONNECT_TIMEOUT : Nat := 5000

/-- The delay computed in ws.onclose:
Math.min(maxReconnectDelay, baseReconnectDelay * Math.pow(2, reconnectAttempts)). -/
def reconnectDelay (attempts : Nat) : Nat :=
  min maxReconnectDelay (baseReconnectDelay * 2 ^ attempts)

/-- The connection-lifecycle state owned by the useEffect: the isSubscribed flag, the
wsRef handle (none when nulled), the two timer refs (true when a timer is pending),
the reconnect-attempt counter, the last delay passed to the reconnect setTimeout, and
a count of connection-open attempts (new WebSocket constructions). -/
structure ConnMgrState where
  subscribed : Bool
  wsState : WsState
  socket : Option ReadyState
  reconnectTimer : Bool
  connectionTimer : Bool
  reconnectAttempts : Nat
  lastScheduledDelay : Option Nat
  connectCalls : Nat
deriving DecidableEq, Repr

/-- connectWebSocket: a no-op when the stored handle is already open or connecting;
otherwise sets state to connecting, arms the connection timer and opens a socket. -/
def connectWebSocket (s : ConnMgrState) : ConnMgrState :=
  if s.socket = some .openRS ∨ s.socket = some .connectingRS then s
  else
    { s with wsState := .connecting
             socket := some .connectingRS
             connectionTimer := true
             connectCalls := s.connectCalls + 1 }

/-- ws.onopen: under the isSubscribed guard, state becomes connected and the attempt
counter resets to zero; the connection timer is cleared unconditionally. The handle,
when still referenced, is now open. -/
def onOpen (s : ConnMgrState) : ConnMgrState :=
  let s1 :=
    if s.subscribed then { s with wsState := .connected, reconnectAttempts := 0 } else s
  { s1 with connectionTimer := false, socket := s.socket.map (fun _ => .openRS) }

/-- ws.onclose: under the isSubscribed guard, state becomes disconnected, the handle
is nulled, and a reconnect timer is scheduled with the backoff delay computed from the
current attempt counter; the connection timer is cleared unconditionally. -/
def onClose (s : ConnMgrState) : ConnMgrState :=
  let s1 :=
    if s.subscribed then
      { s with wsState := .disconnected
               socket := none
               reconnectTimer := true
               lastScheduledDelay := some (reconnectDelay s.reconnectAttempts) }
    else s
  { s1 with connectionTimer := false }

/-- The reconnect timer callback: increments the attempt counter unconditionally,
then calls connectWebSocket only under the isSubscribed guard. -/
def onReconnectFired (s : ConnMgrState) : ConnMgrState :=
  let s1 := { s with reconnectTimer := false
                     reconnectAttempts := s.reconnectAttempts + 1 }
  if s1.subscribed then connectWebSocket s1 else s1

/-- The connection-timeout callback: when the socket has not opened it is closed
(a later close event is delivered separately) and, under the isSubscribed guard,
state becomes disconnected. Never opens a connection. -/
def onConnTimeoutFired (s : ConnMgrState) : ConnMgrState :=
  let s1 := { s with connectionTimer := false }
  if s.socket = some .openRS then s1
  else if s.subscribed then { s1 with wsState := .disconnected } else s1

/-- The asynchronous callbacks the event loop can still deliver. -/
inductive LifeEvent
  | closeFired
  | openFired
  | reconnectFired
  | connTimeoutFired
deriving DecidableEq, Repr

/-- One event-loop step of the connection lifecycle. The model is permissive: it
delivers any callback in any state (real traces are a subset), so the theorems below
hold even for spurious timer deliveries. -/
def stepLife (s : ConnMgrState) (e : LifeEvent) : ConnMgrState :=
  match e with
  | .closeFired => onClose s
  | .openFired => onOpen s
  | .reconnectFired => onReconnectFired s
  | .connTimeoutFired => onConnTimeoutFired s

/-- Run a sequence of event-loop deliveries. -/
def runLife (s : ConnMgrState) (es : List LifeEvent) : ConnMgrState :=
  es.foldl stepLife s

/-- The useEffect cleanup: drops the subscription flag, nulls and closes the handle,
and clears both timers. -/
def teardown (s : ConnMgrState) : ConnMgrState :=
  { s with subscribed := false
           socket := none
           reconnectTimer := false
           connectionTimer := false }

/-- Outcome of the submission readiness wait. -/
inductive WsOutcome
  | resolved (tick : Nat)
  | rejectedNotConnected (tick : Nat)
  | rejectedTimeout
deriving DecidableEq, Repr

/-- The number of 100ms poll ticks that fit before the 5000ms timeout fires. -/
def maxPollTicks : Nat := WS_CONNECT_TIMEOUT / 100

/-- The checkConnection polling loop of ensureWebSocketConnection. captured is the
wsState value the promise closure captured when the wait began: it is a constant for
the whole wait (the component state updates are invisible to this closure), whereas
the socket handle is read through wsRef on every tick, modelled by isOpen as a
function of the tick. -/
def pollConnection (captured : WsState) (isOpen : Nat → Bool) :
    Nat → Nat → WsOutcome
  | 0, _ => .rejectedTimeout
  | fuel + 1, k =>
      if isOpen k then .resolved k
      else if captured = .disconnected then .rejectedNotConnected k
      else pollConnection captured isOpen fuel (k + 1)

/-- ensureWebSocketConnection: polls every 100ms until the socket is open, the
captured state is disconnected, or the 5000ms timeout elapses. -/
def ensureWebSocketConnection (captured : WsState) (isOpen : Nat → Bool) : WsOutcome :=
  pollConnection captured isOpen maxPollTicks 0

/-- The readiness wait as invoked against a time-varying true connection state: the
code reads the state trace only once, at tick zero, through the captured closure
value. -/
def ensureWaitOutcome (stateAt : Nat → WsState) (isOpen : Nat → Bool) : WsOutcome :=
  ensureWebSocketConnection (stateAt 0) isOpen

/-- A raw JavaScript value in a descriptor field: a string, undefined (the field is
absent), or some other non-string value. -/
inductive JsValue
  | str (s : String)
  | undef
  | other
deriving DecidableEq, Repr

/-- A descriptor as JavaScript sees it, before any field has been validated. -/
structure JsFormData where
  name : JsValue
  title : JsValue
  company : JsValue
  summary : JsValue
  linkedin : JsValue
  llm : JsValue
  searchEngine : JsValue
deriving DecidableEq, Repr

/-- The runtime exceptions the cache path can raise. -/
inductive JsError
  | typeError
deriving DecidableEq, Repr

/-- value.trim().toLowerCase(): succeeds on a string, throws a TypeError on
undefined (no .trim property) or on any non-string value (.trim is not a function). -/
def jsTrimLower : JsValue → Except JsError String
  | .str s => .ok (normalizeIdentity s)
  | .undef => .error .typeError
  | .other => .error .typeError

/-- Whether a JavaScript value is a present string. -/
def JsValue.isStringVal : JsValue → Bool
  | .str _ => true
  | _ => false

/-- The relevantData object at the JavaScript level: normalized identity strings plus
the selection values taken as-is. -/
structure JsCacheKey where
  name : String
  title : String
  company : String
  summary : String
  linkedin : String
  llm : JsValue
  searchEngine : JsValue
deriving DecidableEq, Repr

/-- generateCacheKey evaluated on raw JavaScript values: the identity fields are
normalized in object-literal order and the first non-string identity field throws. -/
def generateCacheKeyJs (f : JsFormData) : Except JsError JsCacheKey := do
  let n ← jsTrimLower f.name
  let t ← jsTrimLower f.title
  let c ← jsTrimLower f.company
  let su ← jsTrimLower f.summary
  let li ← jsTrimLower f.linkedin
  return { name := n, title := t, company := c, summary := su, linkedin := li
           llm := f.llm, searchEngine := f.searchEngine }

/-- All five identity fields are present string values. -/
def identityFieldsAreStrings (f : JsFormData) : Bool :=
  f.name.isStringVal && f.title.isStringVal && f.company.isStringVal &&
  f.summary.isStringVal && f.linkedin.isStringVal

/-- All seven descriptor fields are present string values. -/
def allFieldsAreStrings (f : JsFormData) : Bool :=
  identityFieldsAreStrings f && f.llm.isStringVal && f.searchEngine.isStringVal

/-- checkCache at the JavaScript level: generateCacheKey runs outside the try/catch
of getCachedResult, so its TypeError propagates out of the hook. -/
def checkCacheJs (f : JsFormData) (store : KVStore JsCacheKey) (now : Int) :
    Except JsError (Option ResultPayload × KVStore JsCacheKey) := do
  let cacheKey ← generateCacheKeyJs f
  return getCachedResult store cacheKey now

/-- updateCache at the JavaScript level: generateCacheKey runs outside the try/catch
of setCachedResult, so its TypeError propagates out of the hook. -/
def updateCacheJs (f : JsFormData) (store : KVStore JsCacheKey) (result : ResultPayload)
    (now : Int) : Except JsError (KVStore JsCacheKey) := do
  let cacheKey ← generateCacheKeyJs f
  return setCachedResult store cacheKey result now

/-- The first-render form state of the streaming App. -/
def initialForm : FormData :=
  { name := "", title := "", company := "", summary := "", linkedin := ""
    llm := "gemini", searchEngine := "duckduckgo" }

/-- The zero-valued streaming accumulator installed by useState. -/
def initialStreaming : StreamingResult :=
  { basic_info := none, background_info := none, leadership_info := none
    reputation_info := none, strategy_info := none, aggregated_profile := none
    metadata := [], isComplete := false }

/-- The state of a freshly mounted streaming App with an empty cache store; the
message-handler closures captured the initial form. -/
def initialAppState : AppState :=
  { loading := false, result := none, error := none, progress := []
    streamingResult := initialStreaming, currentNode := none, completedNodes := []
    store := [], mountForm := initialForm, isCacheHit := false }

/-- A concrete submitted descriptor, differing from the mount-time form. -/
def sampleDescriptor : FormData :=
  { name := "Jane Doe", title := "CEO", company := "Acme Corp"
    summary := "Experienced executive", linkedin := "https://linkedin.com/in/janedoe"
    llm := "gemini", searchEngine := "duckduckgo" }

/-- A concrete final payload with no execution summary. -/
def samplePayload : ResultPayload :=
  { basic_info := some (.jstr "profile"), background_info := some (.jstr "background")
    leadership_info := none, reputation_info := none, strategy_info := none
    aggregated_profile := some (.jstr "aggregate"), metadata := some []
    execution_summary := none, user_message := none }

/-- A concrete partial payload. -/
def samplePartial : ResultPayload :=
  { basic_info := none, background_info := some (.jstr "more background")
    leadership_info := none, reputation_info := none, strategy_info := none
    aggregated_profile := none, metadata := none
    execution_summary := none, user_message := none }

/-- First submission of the sample descriptor on a fresh mount. -/
def c1FirstSubmit : AppState × Bool := handleSubmit 0 sampleDescriptor initialAppState

/-- State after the first submission completes with a final_result frame. -/
def c1AfterFinal : AppState := handleEvent 1000 (.final_result samplePayload) c1FirstSubmit.1

/-- A second submission of the same descriptor 1 second later, well within the TTL. -/
def c1SecondSubmit : AppState × Bool := handleSubmit 2000 sampleDescriptor c1AfterFinal

/-- A true connection-state trace that is connecting at the start of the wait and
becomes disconnected from the second poll tick on. -/
def c4Trace : Nat → WsState := fun k => if k = 0 then .connecting else .disconnected

/-- A socket that never opens. -/
def c4NeverOpen : Nat → Bool := fun _ => false

/-- A live, subscribed connection-manager state with a nonzero attempt counter. -/
def connectedConnState : ConnMgrState :=
  { subscribed := true, wsState := .connected, socket := some .openRS
    reconnectTimer := false, connectionTimer := false
    reconnectAttempts := 2, lastScheduledDelay := none, connectCalls := 1 }

/-- A descriptor with already-canonical identity fields. -/
def c9DescriptorA : FormData :=
  { name := "john smith", title := "ceo", company := "acme corp"
    summary := "summary text", linkedin := "https://x/y"
    llm := "Gemini", searchEngine := "duckduckgo" }

/-- The same descriptor up to leading/trailing whitespace and letter case in the
identity fields, with the selection fields agreeing exactly. -/
def c9DescriptorB : FormData :=
  { name := "  John SMITH  ", title := " CEO", company := "ACME Corp "
    summary := " Summary TEXT ", linkedin := "HTTPS://X/Y"
    llm := "Gemini", searchEngine := "duckduckgo" }

/-- A descriptor whose name field is undefined and whose other fields are strings. -/
def c10BadForm : JsFormData :=
  { name := .undef, title := .str "CTO", company := .str "Initech"
    summary := .str "s", linkedin := .str "l"
    llm := .str "gemini", searchEngine := .str "duckduckgo" }

/-- A descriptor whose seven fields are all present strings. -/
def c10GoodForm : JsFormData :=
  { name := .str "Ada", title := .str "CTO", company := .str "Initech"
    summary := .str "s", linkedin := .str "l"
    llm := .str "gemini", searchEngine := .str "duckduckgo" }

theorem getItem_setItem {kappa : Type} [DecidableEq kappa] (store : KVStore kappa)
    (k : kappa) (e : CacheEntry) : getItem (setItem store k e) k = some e := by
  simp [setItem, getItem]

theorem getItem_removeItem {kappa : Type} [DecidableEq kappa] (store : KVStore kappa)
    (k : kappa) : getItem (removeItem store k) k = none := by
  induction store with
  | nil => simp [removeItem, getItem]
  | cons hd tl ih =>
      obtain ⟨k1, e⟩ := hd
      by_cases h : k1 = k
      · simpa [removeItem, h] using ih
      · simpa [removeItem, getItem, h] using ih

theorem processEvents_append_single (now : Int) (es : List Event) (e : Event)
    (s : AppState) :
    processEvents now (es ++ [e]) s = handleEvent now e (processEvents now es s) := by
  simp [processEvents, List.foldl_append]

/-- C1: the end-to-end double-submission scenario fails on the code. The message
handlers close over the mount-time form, so the completion of the first submission of
sampleDescriptor stores the payload under the cache key of initialForm; the second
submission of the same descriptor within the TTL computes a different key, misses the
cache, returns no stored payload, and sends a second outbound enrich frame. -/
theorem cache_store_uses_mount_form_key :
    c1FirstSubmit.2 = true ∧
    getItem c1AfterFinal.store (generateCacheKey initialForm) =
      some { data := samplePayload, timestamp := 1000 } ∧
    getItem c1AfterFinal.store (generateCacheKey sampleDescriptor) = none ∧
    generateCacheKey sampleDescriptor ≠ generateCacheKey initialForm ∧
    c1SecondSubmit.2 = true ∧
    c1SecondSubmit.1.result = none := by
  refine ⟨by decide, by decide, by decide, by decide, by decide, by decide⟩

/-- C8: for every freshly stored entry, a lookup 1ms before the TTL boundary is a hit
and leaves the store unchanged, while a lookup 1ms past the boundary is a miss that
deletes the entry from the persisted store. -/
theorem cache_ttl_boundaries (store : Store) (key : CacheKey) (d : ResultPayload)
    (t : Int) :
    (getCachedResult (setCachedResult store key d t) key (t + CACHE_EXPIRY - 1)).1 =
      some d ∧
    (getCachedResult (setCachedResult store key d t) key (t + CACHE_EXPIRY - 1)).2 =
      setCachedResult store key d t ∧
    (getCachedResult (setCachedResult store key d t) key (t + CACHE_EXPIRY + 1)).1 =
      none ∧
    getItem (getCachedResult (setCachedResult store key d t) key
      (t + CACHE_EXPIRY + 1)).2 key = none := by
  have hfresh : t + CACHE_EXPIRY - 1 - t < CACHE_EXPIRY := by
    unfold CACHE_EXPIRY
    omega
  have hstale : ¬ (t + CACHE_EXPIRY + 1 - t < CACHE_EXPIRY) := by
    unfold CACHE_EXPIRY
    omega
  have hget : getItem (setCachedResult store key d t) key =
      some { data := d, timestamp := t } := getItem_setItem store key _
  unfold getCachedResult
  rw [hget]
  simp only [hfresh, if_true, hstale, if_false]
  exact ⟨trivial, trivial, trivial, getItem_removeItem _ key⟩

/-- C9: two descriptors whose identity fields agree after trimming and
case-normalization and whose selection fields agree exactly produce equal cache keys;
the selection fields enter the key as-is, without normalization. -/
theorem cache_key_normalization (d1 d2 : FormData)
    (hn : normalizeIdentity d1.name = normalizeIdentity d2.name)
    (ht : normalizeIdentity d1.title = normalizeIdentity d2.title)
    (hc : normalizeIdentity d1.company = normalizeIdentity d2.company)
    (hsu : normalizeIdentity d1.summary = normalizeIdentity d2.summary)
    (hli : normalizeIdentity d1.linkedin = normalizeIdentity d2.linkedin)
    (hl : d1.llm = d2.llm) (hse : d1.searchEngine = d2.searchEngine) :
    generateCacheKey d1 = generateCacheKey d2 ∧
    (generateCacheKey d1).llm = d1.llm ∧
    (generateCacheKey d1).searchEngine = d1.searchEngine := by
  refine ⟨?_, rfl, rfl⟩
  simp [generateCacheKey, hn, ht, hc, hsu, hli, hl, hse]

/-- C9 witness: two concrete descriptors differing only by edge whitespace and letter
case in the identity fields collide to the same key, which carries the llm selection
verbatim. -/
theorem cache_key_normalization_witness :
    generateCacheKey c9DescriptorA = generateCacheKey c9DescriptorB ∧
    (generateCacheKey c9DescriptorA).llm = "Gemini" := by
  have h := cache_key_normalization c9DescriptorA c9DescriptorB
    (by decide) (by decide) (by decide) (by decide) (by decide) (by decide) (by decide)
  exact ⟨h.1, h.2.1⟩

/-- C2 counterexample: after a final_result has set isComplete to true, a
partial_result arriving late reverts it to false — the handler writes
isComplete := false unconditionally, so the flag does not stay true for every event
sequence between two submission resets. -/
theorem isComplete_reverts_on_late_partial :
    c1AfterFinal.streamingResult.isComplete = true ∧
    (handleEvent 1500 (.partial_result samplePartial)
      c1AfterFinal).streamingResult.isComplete = false := by
  refine ⟨by decide, by decide⟩

/-- C2 amended: across any event sequence that contains no partial_result frame,
once isComplete is true it remains true; only the partial_result handler can revert
it. -/
theorem isComplete_monotone_without_late_partials (now : Int) (es : List Event)
    (s : AppState) (h1 : s.streamingResult.isComplete = true)
    (h2 : es.all (fun e => !e.isPartialResult) = true) :
    (processEvents now es s).streamingResult.isComplete = true := by
  induction es generalizing s with
  | nil => simpa [processEvents] using h1
  | cons e rest ih =>
      rw [List.all_cons, Bool.and_eq_true] at h2
      have hstep : (handleEvent now e s).streamingResult.isComplete = true := by
        cases e with
        | progress d => simpa [handleEvent, handleProgress] using h1
        | node_start node => simpa [handleEvent, handleNodeStart] using h1
        | node_error node err => simpa [handleEvent, handleNodeError] using h1
        | partial_result d => simp [Event.isPartialResult] at h2
        | node_complete node => simpa [handleEvent, handleNodeComplete] using h1
        | final_result d => simp [handleEvent, handleFinalResult]
        | result d => simpa [handleEvent, handleResult] using h1
        | error d => simpa [handleEvent, handleErrorEvent] using h1
      have : processEvents now (e :: rest) s = processEvents now rest (handleEvent now e s) := by
        simp [processEvents]
      rw [this]
      exact ih (handleEvent now e s) hstep h2.2

/-- C2 witness: a concrete completed state stays complete across a progress frame and
a node_complete frame. -/
theorem isComplete_monotone_witness :
    (processEvents 0 [.progress "done", .node_complete "aggregation"]
      c1AfterFinal).streamingResult.isComplete = true :=
  isComplete_monotone_without_late_partials 0
    [.progress "done", .node_complete "aggregation"] c1AfterFinal
    (by decide) (by decide)

/-- C3 counterexample: handling a plain result frame does not mark the streaming
accumulator complete — from the freshly reset submission state it leaves isComplete
at false, while a final_result with the same payload sets it to true. -/
theorem plain_result_leaves_isComplete_false :
    (handleEvent 1000 (.result samplePayload)
      c1FirstSubmit.1).streamingResult.isComplete = false ∧
    (handleEvent 1000 (.final_result samplePayload)
      c1FirstSubmit.1).streamingResult.isComplete = true := by
  refine ⟨by decide, by decide⟩

/-- C3 amended: the plain result fallback agrees with final_result on the stored
result, the loading flag and the cache store, and it clears the error; but it leaves
the streaming accumulator and the current-stage marker untouched, so it does not set
isComplete. -/
theorem plain_result_effect (now : Int) (d : ResultPayload) (s : AppState) :
    (handleEvent now (.result d) s).result = (handleEvent now (.final_result d) s).result ∧
    (handleEvent now (.result d) s).loading = (handleEvent now (.final_result d) s).loading ∧
    (handleEvent now (.result d) s).store = (handleEvent now (.final_result d) s).store ∧
    (handleEvent now (.result d) s).error = none ∧
    (handleEvent now (.result d) s).streamingResult = s.streamingResult ∧
    (handleEvent now (.result d) s).currentNode = s.currentNode := by
  refine ⟨rfl, rfl, rfl, rfl, rfl, rfl⟩

/-- C7: a node_error event only appends to the activity log — it leaves the global
error, the loading flag and the accumulator untouched — and any sequence that ends
with a final_result still reaches isComplete = true, with the error set to the
advisory limitations message exactly when the execution summary lists failed agents. -/
theorem stage_error_isolated (now : Int) (s : AppState) (es : List Event)
    (x err : String) (d : ResultPayload) :
    (handleNodeError x err s).error = s.error ∧
    (handleNodeError x err s).loading = s.loading ∧
    (handleNodeError x err s).streamingResult = s.streamingResult ∧
    (processEvents now (Event.node_error x err :: (es ++ [Event.final_result d]))
      s).streamingResult.isComplete = true ∧
    (processEvents now (Event.node_error x err :: (es ++ [Event.final_result d]))
      s).error =
      (if hasFailedAgents d then some (AppError.limitations (limitationsMessage d))
       else none) := by
  have hsplit : processEvents now (Event.node_error x err :: (es ++ [Event.final_result d])) s =
      handleEvent now (Event.final_result d)
        (processEvents now es (handleEvent now (Event.node_error x err) s)) := by
    have h1 : processEvents now (Event.node_error x err :: (es ++ [Event.final_result d])) s =
        processEvents now (es ++ [Event.final_result d])
          (handleEvent now (Event.node_error x err) s) := by
      simp [processEvents]
    rw [h1, processEvents_append_single]
  refine ⟨rfl, rfl, rfl, ?_, ?_⟩
  · rw [hsplit]
    simp [handleEvent, handleFinalResult]
  · rw [hsplit]
    simp [handleEvent, handleFinalResult]

theorem pollConnection_resolved (captured : WsState) (isOpen : Nat → Bool)
    (h : captured ≠ .disconnected) :
    ∀ fuel k0 k, k0 ≤ k → k < k0 + fuel → (∀ j, k0 ≤ j → j < k → isOpen j = false) →
      isOpen k = true → pollConnection captured isOpen fuel k0 = .resolved k := by
  intro fuel
  induction fuel with
  | zero =>
      intro k0 k hk0 hlt _ _
      omega
  | succ n ih =>
      intro k0 k hk0 hlt hbefore hopen
      by_cases hk : k0 = k
      · subst hk
        simp [pollConnection, hopen]
      · have hlt0 : k0 < k := lt_of_le_of_ne hk0 hk
        have h0 : isOpen k0 = false := hbefore k0 le_rfl hlt0
        simp only [pollConnection, h0, Bool.false_eq_true, if_false, h, ite_false]
        exact ih (k0 + 1) k (by omega) (by omega)
          (fun j hj1 hj2 => hbefore j (by omega) hj2) hopen

theorem pollConnection_timeout (captured : WsState) (isOpen : Nat → Bool)
    (h : captured ≠ .disconnected) :
    ∀ fuel k0, (∀ j, k0 ≤ j → j < k0 + fuel → isOpen j = false) →
      pollConnection captured isOpen fuel k0 = .rejectedTimeout := by
  intro fuel
  induction fuel with
  | zero =>
      intro k0 _
      rfl
  | succ n ih =>
      intro k0 hclosed
      have h0 : isOpen k0 = false := hclosed k0 le_rfl (by omega)
      simp only [pollConnection, h0, Bool.false_eq_true, if_false, h, ite_false]
      exact ih (k0 + 1) (fun j hj1 hj2 => hclosed j (by omega) (by omega))

theorem pollConnection_notConnected (isOpen : Nat → Bool) (fuel k0 : Nat)
    (h0 : isOpen k0 = false) :
    pollConnection .disconnected isOpen (fuel + 1) k0 = .rejectedNotConnected k0 := by
  simp [pollConnection, h0]

/-- C4 counterexample: with the connection state connecting when the wait begins, a
true state trace that becomes disconnected from the next poll tick on, and a socket
that never opens, the readiness wait runs to its 5s timeout and rejects with the
timeout cause — the transition to disconnected during the wait is never observed,
because the poll re-reads only the socket handle while the state value it tests is
the one captured when the wait began. -/
theorem readiness_wait_misses_midwait_disconnect :
    c4Trace 0 = .connecting ∧
    c4Trace 1 = .disconnected ∧
    ensureWaitOutcome c4Trace c4NeverOpen = .rejectedTimeout ∧
    ensureWaitOutcome c4Trace c4NeverOpen ≠ .rejectedNotConnected 1 := by
  refine ⟨rfl, rfl, by decide, by decide⟩

/-- C4 amended: the readiness wait resolves at the first poll tick at which the
socket is open, rejects with the distinct timeout cause when the socket never opens
within the 5s budget, and rejects with the not-connected cause exactly when the
connection state read at the start of the wait was already disconnected — a
transition to disconnected that happens during the wait is not observed and leads to
the timeout rejection instead. -/
theorem readiness_wait_behaviour (stateAt : Nat → WsState) (isOpen : Nat → Bool)
    (k : Nat) :
    (stateAt 0 = .disconnected → isOpen 0 = false →
      ensureWaitOutcome stateAt isOpen = .rejectedNotConnected 0) ∧
    (stateAt 0 ≠ .disconnected → (∀ j, j < maxPollTicks → isOpen j = false) →
      ensureWaitOutcome stateAt isOpen = .rejectedTimeout) ∧
    (stateAt 0 ≠ .disconnected → k < maxPollTicks → (∀ j, j < k → isOpen j = false) →
      isOpen k = true → ensureWaitOutcome stateAt isOpen = .resolved k) := by
  refine ⟨?_, ?_, ?_⟩
  · intro hdisc hclosed
    have hticks : maxPollTicks = 49 + 1 := by decide
    unfold ensureWaitOutcome ensureWebSocketConnection
    rw [hdisc, hticks]
    exact pollConnection_notConnected isOpen 49 0 hclosed
  · intro hne hclosed
    unfold ensureWaitOutcome ensureWebSocketConnection
    exact pollConnection_timeout (stateAt 0) isOpen hne maxPollTicks 0
      (fun j _ hj => hclosed j (by omega))
  · intro hne hk hbefore hopen
    unfold ensureWaitOutcome ensureWebSocketConnection
    exact pollConnection_resolved (stateAt 0) isOpen hne maxPollTicks 0 k
      (by omega) (by omega) (fun j _ hj => hbefore j hj) hopen

/-- C4 witness: a socket that opens at the fourth poll tick resolves there, and a
wait begun while already disconnected rejects immediately with the not-connected
cause. -/
theorem readiness_wait_behaviour_witness :
    ensureWaitOutcome (fun _ => .connecting) (fun j => decide (j = 3)) = .resolved 3 ∧
    ensureWaitOutcome (fun _ => .disconnected) c4NeverOpen = .rejectedNotConnected 0 := by
  constructor
  · exact (readiness_wait_behaviour (fun _ => .connecting) (fun j => decide (j = 3))
      3).2.2 (by decide) (by decide) (by decide) (by decide)
  · exact (readiness_wait_behaviour (fun _ => .disconnected) c4NeverOpen 0).1
      (by decide) (by decide)

/-- C5: the delay the close handler schedules equals
min(maxReconnectDelay, baseReconnectDelay * 2 ^ attempts); the delay sequence is
non-decreasing in the attempt counter and caps at maxReconnectDelay from the third
attempt on; the counter is incremented when the reconnect timer fires and reset to
zero on a successful open. -/
theorem reconnect_backoff_schedule (n m k : Nat) (s : ConnMgrState) (hnm : n ≤ m)
    (hk : 3 ≤ k) (hs : s.subscribed = true) :
    reconnectDelay 0 = baseReconnectDelay ∧
    reconnectDelay n ≤ reconnectDelay m ∧
    reconnectDelay n ≤ maxReconnectDelay ∧
    reconnectDelay k = maxReconnectDelay ∧
    (onClose s).lastScheduledDelay = some (min 5000 (1000 * 2 ^ s.reconnectAttempts)) ∧
    (stepLife s .reconnectFired).reconnectAttempts = s.reconnectAttempts + 1 ∧
    (stepLife s .openFired).reconnectAttempts = 0 := by
  refine ⟨by decide, ?_, ?_, ?_, ?_, ?_, ?_⟩
  · exact min_le_min le_rfl
      (Nat.mul_le_mul_left _ (Nat.pow_le_pow_right (by norm_num) hnm))
  · exact min_le_left _ _
  · have h8 : (2 : Nat) ^ 3 ≤ 2 ^ k := Nat.pow_le_pow_right (by norm_num) hk
    have hcap : maxReconnectDelay ≤ baseReconnectDelay * 2 ^ k := by
      have : (1000 : Nat) * 2 ^ 3 ≤ 1000 * 2 ^ k := Nat.mul_le_mul_left _ h8
      unfold maxReconnectDelay baseReconnectDelay
      omega
    exact min_eq_left hcap
  · simp [onClose, hs, reconnectDelay, maxReconnectDelay, baseReconnectDelay]
  · simp only [stepLife, onReconnectFired, hs, if_true, connectWebSocket]
    split
    · rfl
    · rfl
  · simp [stepLife, onOpen, hs]

/-- C5 witness: the concrete schedule facts at attempts 1, 2 and 3 on a concrete
subscribed state. -/
theorem reconnect_backoff_schedule_witness :
    reconnectDelay 0 = baseReconnectDelay ∧
    reconnectDelay 1 ≤ reconnectDelay 2 ∧
    reconnectDelay 3 = maxReconnectDelay ∧
    (onClose connectedConnState).lastScheduledDelay = some 4000 ∧
    (stepLife connectedConnState .reconnectFired).reconnectAttempts = 3 ∧
    (stepLife connectedConnState .openFired).reconnectAttempts = 0 := by
  have h := reconnect_backoff_schedule 1 2 3 connectedConnState (by decide) (by decide)
    (by decide)
  exact ⟨h.1, h.2.1, h.2.2.2.1, h.2.2.2.2.1, h.2.2.2.2.2.1, h.2.2.2.2.2.2⟩

theorem stepLife_unsubscribed (s : ConnMgrState) (e : LifeEvent)
    (h : s.subscribed = false) :
    (stepLife s e).connectCalls = s.connectCalls ∧
    (stepLife s e).subscribed = false := by
  cases e with
  | closeFired => simp [stepLife, onClose, h]
  | openFired => simp [stepLife, onOpen, h]
  | reconnectFired => simp [stepLife, onReconnectFired, h]
  | connTimeoutFired =>
      simp only [stepLife, onConnTimeoutFired, h]
      split <;> simp [h]

theorem runLife_unsubscribed (es : List LifeEvent) (s : ConnMgrState)
    (h : s.subscribed = false) :
    (runLife s es).connectCalls = s.connectCalls ∧ (runLife s es).subscribed = false := by
  induction es generalizing s with
  | nil => exact ⟨rfl, h⟩
  | cons e rest ih =>
      have hstep := stepLife_unsubscribed s e h
      have hrun : runLife s (e :: rest) = runLife (stepLife s e) rest := rfl
      rw [hrun]
      obtain ⟨ih1, ih2⟩ := ih (stepLife s e) hstep.2
      exact ⟨ih1.trans hstep.1, ih2⟩

/-- C6: teardown clears both timers, and from the torn-down state no sequence of
event-loop deliveries — including the close fired by the deliberate close and any
reconnect timer firing — ever performs another connection-open attempt: the
connection-open counter never changes after teardown. -/
theorem teardown_prevents_reconnect (s : ConnMgrState) (es : List LifeEvent) :
    (teardown s).reconnectTimer = false ∧
    (teardown s).connectionTimer = false ∧
    (runLife (teardown s) es).connectCalls = s.connectCalls ∧
    (runLife (teardown s) es).subscribed = false := by
  have h := runLife_unsubscribed es (teardown s) rfl
  exact ⟨rfl, rfl, h.1, h.2⟩

set_option maxHeartbeats 1000000 in
theorem generateCacheKeyJs_ok (f : JsFormData) (h : allFieldsAreStrings f = true) :
    ∃ k, generateCacheKeyJs f = .ok k := by
  obtain ⟨n, t, c, su, li, llm, se⟩ := f
  cases n <;> cases t <;> cases c <;> cases su <;> cases li <;>
    first
      | exact ⟨_, rfl⟩
      | simp_all [allFieldsAreStrings, identityFieldsAreStrings, JsValue.isStringVal]

set_option maxHeartbeats 1000000 in
theorem generateCacheKeyJs_error (f : JsFormData)
    (h : identityFieldsAreStrings f = false) :
    generateCacheKeyJs f = .error .typeError := by
  obtain ⟨n, t, c, su, li, llm, se⟩ := f
  cases n <;> cases t <;> cases c <;> cases su <;> cases li <;>
    first
      | rfl
      | simp_all [identityFieldsAreStrings, JsValue.isStringVal]

/-- C10: when all seven descriptor fields are present strings the key derivation
succeeds; when any identity field is absent or not a string, generateCacheKey throws
a TypeError, and both checkCache and updateCache propagate that exception out of the
hook instead of treating the descriptor as a miss. -/
theorem cache_key_requires_string_fields (f : JsFormData) (store : KVStore JsCacheKey)
    (res : ResultPayload) (now : Int) :
    (allFieldsAreStrings f = true → ∃ k, generateCacheKeyJs f = .ok k) ∧
    (identityFieldsAreStrings f = false →
      generateCacheKeyJs f = .error .typeError ∧
      checkCacheJs f store now = .error .typeError ∧
      updateCacheJs f store res now = .error .typeError) := by
  refine ⟨generateCacheKeyJs_ok f, ?_⟩
  intro hbad
  have hg : generateCacheKeyJs f = .error .typeError := generateCacheKeyJs_error f hbad
  refine ⟨hg, ?_, ?_⟩
  · unfold checkCacheJs
    rw [hg]
    rfl
  · unfold updateCacheJs
    rw [hg]
    rfl

/-- C10 witness: a descriptor of seven strings derives a key, and a descriptor whose
name field is undefined makes checkCache and updateCache throw the TypeError. -/
theorem cache_key_requires_string_fields_witness :
    (∃ k, generateCacheKeyJs c10GoodForm = .ok k) ∧
    checkCacheJs c10BadForm [] 0 = .error .typeError ∧
    updateCacheJs c10BadForm [] samplePayload 0 = .error .typeError := by
  refine ⟨(cache_key_requires_string_fields c10GoodForm [] samplePayload 0).1 (by decide),
    ?_, ?_⟩
  · exact ((cache_key_requires_string_fields c10BadForm [] samplePayload 0).2
      (by decide)).2.1
  · exact ((cache_key_requires_string_fields c10BadForm [] samplePayload 0).2
      (by decide)).2.2
